import Mathlib

/-!
Verification development for `ns-stress-test/vault_namespace.py`, a stress-test
tool that provisions HashiCorp Vault namespaces and KV-v2 mounts over HTTP.

The script is embedded shallowly:
* an HTTP response oracle (`Oracle`) stands for the remote service: it maps each
  creation request (`Event`) to the integer HTTP status code the service returns;
* the worker functions `create_namespace_with_kvs` (lines 74-123 of the source)
  and `create_parent_namespace_tree` (lines 125-169) are translated as pure
  functions returning both the result dictionary and the ordered list of HTTP
  requests that the (single-threaded, sequential) worker issues; an event at
  position `i` of such a trace is issued only after every event before it has
  returned, so positional order in the trace encodes the issued/returned order;
* `main` (lines 171-316) is translated as `mainRun`, returning the process exit
  code together with one request trace per submitted top-level unit/tree (order
  across units is left unspecified, matching the thread pool);
* the per-future result-collection loops (lines 264-271 and 306-314) are
  translated as `collectD2` / `collectD3` over an arbitrary completion order.

The Vault address, token and the `--insecure` flag are forwarded verbatim to
curl and never influence control flow past validation, so they are not threaded
through the builders. Python `int` indices/counters are modelled as `Nat` where
the program only ever uses non-negative values (indices, widths, counts), and as
`Int` where the sign is checked (`n`, `x` validation, HTTP status codes).
-/

namespace VaultNS

/-- Outcome classification of one creation request (spec section 3): the four
buckets selected by the `if/elif` chains at lines 93-104 and 114-121. -/
inductive Outcome where
  | Created
  | AlreadyExists
  | Rejected
  | Failed
deriving DecidableEq, Repr

/-- One HTTP creation request issued by the script: a namespace creation
(`POST /v1/sys/namespaces/{nsName}` with parent scope header, lines 44-53) or a
mount creation (`POST /v1/sys/mounts/{mount}` with namespace scope header,
lines 55-67). -/
inductive Event where
  | nsCreate (nsName parentNs fullPath : String)
  | mountCreate (nsScope mount : String)
deriving DecidableEq, Repr

/-- The remote service, as seen by the script: each request gets an integer
HTTP status code back (run_curl's parsed `%\x7bhttp_code\x7d`, or -1). -/
def Oracle : Type := Event → Int

/-- Value of a list of decimal digit characters, most significant first. -/
def digitsVal (ds : List Char) : Nat :=
  ds.foldl (fun n c => n * 10 + (c.toNat - 48)) 0

/-- Model of Python `int(str)` on a short string: optional surrounding
whitespace, an optional sign, then at least one decimal digit; anything else
raises `ValueError`, modelled as `none`. (Python's underscore digit grouping is
not modelled; it cannot occur in a three-character slice that also parses.) -/
def pyInt? (s : String) : Option Int :=
  let t := ((s.data.dropWhile Char.isWhitespace).reverse.dropWhile Char.isWhitespace).reverse
  match t with
  | '-' :: ds => if ds ≠ [] ∧ ds.all Char.isDigit then some (-(digitsVal ds : Int)) else none
  | '+' :: ds => if ds ≠ [] ∧ ds.all Char.isDigit then some ((digitsVal ds : Int)) else none
  | ds => if ds ≠ [] ∧ ds.all Char.isDigit then some ((digitsVal ds : Int)) else none

/-- Model of the status parsing in `run_curl` (lines 31-42): the last three
characters of stdout are parsed as the HTTP code; on parse failure the code is
-1 and the whole output is the body. Returns (code, body). -/
def parseHttpCode (out : String) : Int × String :=
  match pyInt? (out.takeRight 3) with
  | some code => (code, out.dropRight 3)
  | none => (-1, out)

/-- Classification chain for a namespace-creation status (lines 93-104): which
of the four log branches runs for a given code. -/
def classifyNs (code : Int) : Outcome :=
  if code = 200 ∨ code = 201 ∨ code = 204 then .Created
  else if code = 409 then .AlreadyExists
  else if code = 400 then .Rejected
  else .Failed

/-- Classification chain for a mount-creation status (lines 114-121); the 400
and 409 tests appear in the opposite order to lines 93-104. -/
def classifyKv (code : Int) : Outcome :=
  if code = 200 ∨ code = 201 ∨ code = 204 then .Created
  else if code = 400 then .Rejected
  else if code = 409 then .AlreadyExists
  else .Failed

/-- Python `f"{n:0{width}d}"` for a non-negative `n`: decimal representation,
left-padded with zeros to at least `width` characters. -/
def padNum (width n : Nat) : String :=
  let s := Nat.repr n
  if s.length < width then String.mk (List.replicate (width - s.length) '0') ++ s else s

/-- Python `s.startswith(pre)`. -/
def pyStartsWith (s pre : String) : Bool :=
  pre.data.isPrefixOf s.data

/-- Replace the leftmost occurrence of `pat` (if any) by `repl`, on character
lists; helper for `pyReplaceFirst`. -/
def replaceFirstAux (pat repl : List Char) : List Char → List Char
  | [] => []
  | c :: cs =>
    if pat.isPrefixOf (c :: cs) then repl ++ (c :: cs).drop pat.length
    else c :: replaceFirstAux pat repl cs

/-- Python `s.replace(old, new, 1)` for a non-empty `old`: replace the leftmost
occurrence of `old` by `new`, leaving `s` unchanged when `old` does not occur. -/
def pyReplaceFirst (s old new : String) : String :=
  String.mk (replaceFirstAux old.data new.data s.data)

/-- Line 108: the namespace scope header used for a unit's mount creations —
the full path with the first occurrence of "root/" replaced by "", applied only
when the path starts with "root/". -/
def nsForKv (full_ns_path : String) : String :=
  if pyStartsWith full_ns_path "root/" then pyReplaceFirst full_ns_path "root/" "" else full_ns_path

/-- One entry of the `kv_results` list (line 112): mount name and raw status. -/
structure KvResult where
  mount : String
  code : Int
deriving DecidableEq, Repr

/-- The dictionary returned by `create_namespace_with_kvs` (lines 82-87): the
field `ns_name` holds the full namespace path (line 83). -/
structure UnitResult where
  ns_name : String
  ns_created : Bool
  ns_code : Int
  kv_results : List KvResult
deriving DecidableEq, Repr

/-- Lines 74-123, `create_namespace_with_kvs`: create one namespace, then
create its `num_kvs` mounts sequentially. Returns the result dictionary and the
ordered trace of HTTP requests issued by this worker. The `ns_created` flag is
computed by the four-branch chain of lines 93-104, every branch of which sets it
to `True`. Mount `k` ranges over `start_index .. start_index + num_kvs - 1`;
here `k = start_index + j` with `j < num_kvs`. -/
def create_namespace_with_kvs (o : Oracle) (ns_name parent_ns full_ns_path mount_pfx : String)
    (start_index num_kvs width_kv : Nat) : UnitResult × List Event :=
  let code_ns := o (.nsCreate ns_name parent_ns full_ns_path)
  let ns_created :=
    if code_ns = 200 ∨ code_ns = 201 ∨ code_ns = 204 then true
    else if code_ns = 409 then true
    else if code_ns = 400 then true
    else true
  let ns_for_kv := nsForKv full_ns_path
  let kvSteps := (List.range num_kvs).map (fun j =>
    let mount := mount_pfx ++ "-" ++ padNum width_kv (start_index + j)
    let code_kv := o (.mountCreate ns_for_kv mount)
    (KvResult.mk mount code_kv, Event.mountCreate ns_for_kv mount))
  ({ ns_name := full_ns_path, ns_created := ns_created, ns_code := code_ns,
     kv_results := kvSteps.map Prod.fst },
   Event.nsCreate ns_name parent_ns full_ns_path :: kvSteps.map Prod.snd)

/-- The dictionary returned by `create_parent_namespace_tree` (lines 139-143). -/
structure TreeResult where
  parent : String
  parent_created : Bool
  children : List UnitResult
deriving DecidableEq, Repr

/-- Lines 125-169, `create_parent_namespace_tree`: build the parent unit first,
then each child unit sequentially in ascending index order. The `ns_pfx` and
`width_parent` parameters are accepted but unused, as in the source. Child `j`
ranges over `start_index .. start_index + ns_level2 - 1`. -/
def create_parent_namespace_tree (o : Oracle) (parent_name ns_pfx mount_pfx : String)
    (start_index num_kvs ns_level2 width_parent width_child width_kv : Nat) :
    TreeResult × List Event :=
  let parent_full_path := "root/" ++ parent_name
  let p := create_namespace_with_kvs o parent_name "root" parent_full_path mount_pfx
    start_index num_kvs width_kv
  let childSteps :=
    if 0 < ns_level2 then
      (List.range ns_level2).map (fun j =>
        let child_name := parent_name ++ "-" ++ padNum width_child (start_index + j)
        let child_full_path := parent_full_path ++ "/" ++ child_name
        create_namespace_with_kvs o child_name parent_name child_full_path mount_pfx
          start_index num_kvs width_kv)
    else []
  ({ parent := parent_name, parent_created := p.1.ns_created,
     children := childSteps.map Prod.fst },
   p.2 ++ (childSteps.map Prod.snd).flatten)

/-- Recognizer for namespace-creation events. -/
def isNsEvent : Event → Bool
  | .nsCreate _ _ _ => true
  | .mountCreate _ _ => false

/-- Recognizer for mount-creation events. -/
def isMountEvent : Event → Bool
  | .nsCreate _ _ _ => false
  | .mountCreate _ _ => true

/-- Number of namespace-creation requests in a trace. -/
def countNsCreates (t : List Event) : Nat := (t.filter isNsEvent).length

/-- Number of mount-creation requests in a trace. -/
def countMounts (t : List Event) : Nat := (t.filter isMountEvent).length

/-- Namespace names of the namespace-creation requests of a trace, in order. -/
def nsNamesOf (t : List Event) : List String :=
  t.filterMap (fun e => match e with | .nsCreate nm _ _ => some nm | _ => none)

/-- Mount names of the mount-creation requests of a trace, in order. -/
def mountNamesOf (t : List Event) : List String :=
  t.filterMap (fun e => match e with | .mountCreate _ m => some m | _ => none)

/-- Namespace scope headers of the mount-creation requests of a trace, in order. -/
def mountScopesOf (t : List Event) : List String :=
  t.filterMap (fun e => match e with | .mountCreate s _ => some s | _ => none)

/-- Name of the namespace created by the first request of a trace, if the trace
starts with a namespace creation. -/
def headNsName (t : List Event) : Option String :=
  match t.head? with
  | some (.nsCreate nm _ _) => some nm
  | _ => none

/-- Modelled from the spec's words: the number of decimal digits of a natural
number (used by the claimed padding-width formula `max(3, digitCount(...))`). -/
def digitCount (n : Nat) : Nat :=
  if _h : n < 10 then 1 else digitCount (n / 10) + 1
decreasing_by exact Nat.div_lt_self (by omega) (by omega)

/-- Modelled from the spec's words: the mount-operation authorization scope is
the full hierarchical path with a single leading literal "root/" prefix removed
when the path starts with it, and the full path unchanged otherwise. -/
def specScope (fullPath : String) : String :=
  if pyStartsWith fullPath "root/" then String.mk (fullPath.data.drop ("root/".length)) else fullPath

/-- The configuration surface consumed by `main` (lines 171-210) after argument
parsing: a missing address or token is modelled as the empty string. -/
structure Config where
  namespaces : Int
  kvs : Int
  depth : Nat
  ns_level2 : Nat
  ns_pfx : String
  mount_pfx : String
  start_index : Nat
  addr : String
  token : String
  workers : Nat

/-- Line 232: the mount-name padding width, `max(3, len(str(start_index + x - 1)))`
when `x > 0`, else `3`. -/
def width_kv_of (start_index x : Nat) : Nat :=
  if 0 < x then max 3 (Nat.repr (start_index + x - 1)).length else 3

/-- Lines 237-252: the depth-2 task list — one unit per index
`start_index .. start_index + n - 1`, each run by `create_namespace_with_kvs`.
The returned list holds each unit's result and request trace; the pool runs
units concurrently, so no cross-unit order is claimed. -/
def depth2Units (o : Oracle) (ns_pfx mount_pfx : String)
    (start_index n x width_ns width_kv : Nat) : List (UnitResult × List Event) :=
  (List.range n).map (fun i =>
    let ns_name := ns_pfx ++ "-" ++ padNum width_ns (start_index + i)
    let full_path := "root/" ++ ns_name
    create_namespace_with_kvs o ns_name "root" full_path mount_pfx start_index x width_kv)

/-- Lines 276-304: the depth-3 task list — one parent tree per index
`start_index .. start_index + n - 1`, each run by `create_parent_namespace_tree`.
Depth-3 parents are named with no separator between prefix and index (line 278). -/
def depth3Trees (o : Oracle) (ns_pfx mount_pfx : String)
    (start_index n x ns_level2 width_parent width_child width_kv : Nat) :
    List (TreeResult × List Event) :=
  (List.range n).map (fun i =>
    let parent_name := ns_pfx ++ padNum width_parent (start_index + i)
    create_parent_namespace_tree o parent_name ns_pfx mount_pfx
      start_index x ns_level2 width_parent width_child width_kv)

/-- Lines 171-316, `main`, as exit code plus the per-unit request traces.
Validation (lines 199-210) runs before any task is built: missing address or
token exits 2, then `n <= 0 or x < 0` exits 2, in both cases with zero requests
issued. When the transport is unavailable (curl missing), every worker's first
`subprocess.run` raises `FileNotFoundError` before any HTTP request is issued
and `run_curl` calls `sys.exit(1)` (lines 27-29); the resulting `SystemExit` is
not an `Exception`, so the collection loop's handler (lines 270-271, 313-314)
does not catch it and the process exits with code 1 having issued no request —
modelled as the `none` transport branch. Otherwise the widths are computed once
(lines 226-232) and all tasks are submitted; per-request failures never change
the exit code, which is 0. -/
def mainRun (cfg : Config) (transport : Option Oracle) : Nat × List (List Event) :=
  if cfg.addr = "" ∨ cfg.token = "" then (2, [])
  else if cfg.namespaces ≤ 0 ∨ cfg.kvs < 0 then (2, [])
  else
    match transport with
    | none => (1, [])
    | some o =>
      let n := cfg.namespaces.toNat
      let x := cfg.kvs.toNat
      let width_kv := width_kv_of cfg.start_index x
      if cfg.depth = 2 then
        let width_ns := max 3 (Nat.repr (cfg.start_index + n - 1)).length
        (0, (depth2Units o cfg.ns_pfx cfg.mount_pfx cfg.start_index n x width_ns width_kv).map
          Prod.snd)
      else
        let width_parent := max 3 (Nat.repr (cfg.start_index + n - 1)).length
        let width_child := max 3 (Nat.repr (cfg.start_index + cfg.ns_level2 - 1)).length
        (0, (depth3Trees o cfg.ns_pfx cfg.mount_pfx cfg.start_index n x cfg.ns_level2
          width_parent width_child width_kv).map Prod.snd)

/-- What one submitted future delivers at the collection point: a result, or a
raised exception (caught as `Exception` at lines 270-271 / 313-314), carrying
its message. -/
inductive FutureOutcome (α : Type) where
  | ok (r : α)
  | exc (msg : String)
deriving DecidableEq, Repr

/-- One line printed by the collection loops: a depth-2 progress line
(line 269), a depth-3 progress line with the parent name and its child count
(line 312), or an exception line carrying the unit's identifying name
(lines 271 and 314). -/
inductive LogLine where
  | progressD2 (completed total : Nat)
  | progressD3 (completed total : Nat) (parent : String) (numChildren : Nat)
  | exception (name msg : String)
deriving DecidableEq, Repr

/-- Lines 264-271: the depth-2 collection loop. It receives the futures in an
arbitrary completion order (the input list), increments `completed` for each,
prints a progress line on success and an exception line (with the unit's full
path, the key of `future_to_ns`) on a raised exception, and returns only after
the list is exhausted. -/
def collectD2 (total : Nat) : List (String × FutureOutcome UnitResult) → Nat → List LogLine
  | [], _ => []
  | (ns_name, fo) :: rest, completed =>
    (match fo with
     | .ok _ => LogLine.progressD2 (completed + 1) total
     | .exc e => LogLine.exception ns_name e) :: collectD2 total rest (completed + 1)

/-- Lines 306-314: the depth-3 collection loop, printing the parent name and
its number of children on success. -/
def collectD3 (total : Nat) : List (String × FutureOutcome TreeResult) → Nat → List LogLine
  | [], _ => []
  | (parent_name, fo) :: rest, completed =>
    (match fo with
     | .ok r => LogLine.progressD3 (completed + 1) total parent_name r.children.length
     | .exc e => LogLine.exception parent_name e) :: collectD3 total rest (completed + 1)

/-- Recognizer for namespace creations issued with the literal "root" parent
scope, i.e. top-level (parent) namespace creations. -/
def isParentCreate : Event → Bool
  | .nsCreate _ p _ => decide (p = "root")
  | .mountCreate _ _ => false

/-- Recognizer for namespace creations issued with a non-"root" parent scope,
i.e. child namespace creations. -/
def isChildCreate : Event → Bool
  | .nsCreate _ p _ => decide (p ≠ "root")
  | .mountCreate _ _ => false

/-- Oracle (mock service) answering every request with the same status code. -/
def oracleConst (c : Int) : Oracle := fun _ => c

/-- Oracle (mock service) failing every namespace creation with HTTP 500 while
mount creations succeed with HTTP 200. -/
def oracleNsFail : Oracle := fun e =>
  match e with
  | .nsCreate _ _ _ => 500
  | .mountCreate _ _ => 200

/-- A well-formed depth-2 configuration used to evaluate the theorems at a
concrete input. -/
def sampleConfig2 : Config :=
  { namespaces := 2, kvs := 1, depth := 2, ns_level2 := 1, ns_pfx := "ns", mount_pfx := "kv",
    start_index := 1, addr := "http://vault:8200", token := "tok", workers := 20 }

/-- A well-formed depth-3 configuration used to evaluate the theorems at a
concrete input. -/
def sampleConfig3 : Config :=
  { namespaces := 2, kvs := 1, depth := 3, ns_level2 := 3, ns_pfx := "ns", mount_pfx := "kv",
    start_index := 1, addr := "http://vault:8200", token := "tok", workers := 20 }

/-- A configuration rejected by validation (line 208: `n <= 0`). -/
def invalidConfig : Config :=
  { namespaces := 0, kvs := 1, depth := 2, ns_level2 := 1, ns_pfx := "ns", mount_pfx := "kv",
    start_index := 1, addr := "http://vault:8200", token := "tok", workers := 20 }

/-! Helper lemmas: decimal representations. -/

theorem digitChar_isDigit : ∀ m < 10, (Nat.digitChar m).isDigit = true := by decide

theorem toDigitsCore_isDigit (fuel : Nat) : ∀ (n : Nat) (ds : List Char),
    (∀ c ∈ ds, c.isDigit = true) → ∀ c ∈ Nat.toDigitsCore 10 fuel n ds, c.isDigit = true := by
  induction fuel with
  | zero => intro n ds hds c hc; exact hds c hc
  | succ fuel ih =>
    intro n ds hds c hc
    have hd : (Nat.digitChar (n % 10)).isDigit = true :=
      digitChar_isDigit _ (Nat.mod_lt _ (by omega))
    simp only [Nat.toDigitsCore] at hc
    by_cases h0 : n / 10 = 0
    · rw [if_pos h0] at hc
      rcases List.mem_cons.mp hc with h | h
      · exact h ▸ hd
      · exact hds c h
    · rw [if_neg h0] at hc
      refine ih (n / 10) _ ?_ c hc
      intro d hmem
      rcases List.mem_cons.mp hmem with h | h
      · exact h ▸ hd
      · exact hds d h

theorem repr_data_isDigit (n : Nat) : ∀ c ∈ (Nat.repr n).data, c.isDigit = true := by
  intro c hc
  exact toDigitsCore_isDigit (n + 1) n [] (by simp) c hc

theorem digitCount_of_lt (n : Nat) (h : n < 10) : digitCount n = 1 := by
  unfold digitCount
  rw [dif_pos h]

theorem digitCount_of_ge (n : Nat) (h : ¬ n < 10) : digitCount n = digitCount (n / 10) + 1 := by
  conv_lhs => unfold digitCount
  rw [dif_neg h]

theorem toDigitsCore_length (fuel : Nat) : ∀ (n : Nat) (ds : List Char), n < fuel →
    (Nat.toDigitsCore 10 fuel n ds).length = digitCount n + ds.length := by
  induction fuel with
  | zero => intro n ds h; omega
  | succ fuel ih =>
    intro n ds h
    simp only [Nat.toDigitsCore]
    by_cases h0 : n / 10 = 0
    · have hn10 : n < 10 := by omega
      rw [if_pos h0, digitCount_of_lt n hn10]
      simp only [List.length_cons]
      omega
    · have hn10 : ¬ n < 10 := fun hlt => h0 (Nat.div_eq_of_lt hlt)
      have hdiv : n / 10 < fuel := by
        have h1 : n / 10 < n := Nat.div_lt_self (by omega) (by omega)
        omega
      rw [if_neg h0, ih (n / 10) _ hdiv, digitCount_of_ge n hn10]
      simp only [List.length_cons]
      omega

theorem string_length_eq_data_length (s : String) : s.length = s.data.length := by
  cases s
  rfl

theorem repr_length_eq_digitCount (n : Nat) : (Nat.repr n).length = digitCount n := by
  have h := toDigitsCore_length (n + 1) n [] (Nat.lt_succ_self n)
  rw [string_length_eq_data_length]
  show (Nat.toDigitsCore 10 (n + 1) n []).length = digitCount n
  rw [h]
  rfl

theorem padNum_data_isDigit (w n : Nat) : ∀ c ∈ (padNum w n).data, c.isDigit = true := by
  intro c hc
  unfold padNum at hc
  by_cases hlen : (Nat.repr n).length < w
  · rw [if_pos hlen] at hc
    rw [String.data_append] at hc
    rcases List.mem_append.mp hc with h | h
    · have := List.eq_of_mem_replicate h
      subst this; decide
    · exact repr_data_isDigit n c h
  · rw [if_neg hlen] at hc
    exact repr_data_isDigit n c hc

theorem digitCount_pos (n : Nat) : 1 ≤ digitCount n := by
  by_cases h : n < 10
  · rw [digitCount_of_lt n h]
  · rw [digitCount_of_ge n h]
    omega

theorem padNum_data_ne_nil (w n : Nat) : (padNum w n).data ≠ [] := by
  have hlen : (Nat.repr n).data.length = digitCount n := by
    rw [← string_length_eq_data_length]
    exact repr_length_eq_digitCount n
  have hpos : 1 ≤ digitCount n := digitCount_pos n
  intro hnil
  have hzero : (padNum w n).data.length = 0 := by rw [hnil]; rfl
  unfold padNum at hzero
  by_cases h : (Nat.repr n).length < w
  · rw [if_pos h] at hzero
    rw [String.data_append, List.length_append] at hzero
    omega
  · rw [if_neg h] at hzero
    omega

theorem append_padNum_ne_root (s : String) (w n : Nat) : s ++ padNum w n ≠ "root" := by
  intro h
  have hdata : s.data ++ (padNum w n).data = "root".data := by
    have := congrArg String.data h
    rwa [String.data_append] at this
  have hlast : (s.data ++ (padNum w n).data).getLast? = ("root".data).getLast? := by
    rw [hdata]
  rw [List.getLast?_append] at hlast
  rcases hex : (padNum w n).data.getLast? with _ | c
  · exact padNum_data_ne_nil w n (List.getLast?_eq_none_iff.mp hex)
  · rw [hex] at hlast
    have hct : c = 't' := by
      simpa [Option.or] using hlast
    have hmem : c ∈ (padNum w n).data := by
      rcases List.mem_getLast?_eq_getLast (l := (padNum w n).data) (x := c) hex with ⟨hne, hc⟩
      exact hc ▸ List.getLast_mem hne
    have := padNum_data_isDigit w n c hmem
    rw [hct] at this
    exact absurd this (by decide)

/-! Helper lemmas: first-occurrence replacement and the mount scope header. -/

theorem replaceFirstAux_isPrefixOf (pat : List Char) (hpat : pat ≠ []) :
    ∀ l : List Char, pat.isPrefixOf l = true → replaceFirstAux pat [] l = l.drop pat.length := by
  intro l hl
  cases l with
  | nil =>
    cases pat with
    | nil => exact absurd rfl hpat
    | cons p ps => simp [List.isPrefixOf] at hl
  | cons c cs =>
    unfold replaceFirstAux
    rw [if_pos hl]
    simp

theorem nsForKv_eq_specScope (p : String) : nsForKv p = specScope p := by
  unfold nsForKv specScope
  by_cases h : pyStartsWith p "root/" = true
  · rw [if_pos h, if_pos h]
    unfold pyReplaceFirst
    unfold pyStartsWith at h
    rw [replaceFirstAux_isPrefixOf "root/".data (by decide) p.data h]
    rfl
  · rw [if_neg h, if_neg h]

/-! Helper lemmas: shapes of the builder traces and results. -/

theorem unit_trace_eq (o : Oracle) (ns_name parent_ns full_ns_path mount_pfx : String)
    (start_index num_kvs width_kv : Nat) :
    (create_namespace_with_kvs o ns_name parent_ns full_ns_path mount_pfx
        start_index num_kvs width_kv).2 =
      Event.nsCreate ns_name parent_ns full_ns_path ::
        (List.range num_kvs).map (fun j =>
          Event.mountCreate (nsForKv full_ns_path)
            (mount_pfx ++ "-" ++ padNum width_kv (start_index + j))) := by
  unfold create_namespace_with_kvs
  simp [List.map_map]

theorem unit_result_eq (o : Oracle) (ns_name parent_ns full_ns_path mount_pfx : String)
    (start_index num_kvs width_kv : Nat) :
    (create_namespace_with_kvs o ns_name parent_ns full_ns_path mount_pfx
        start_index num_kvs width_kv).1 =
      { ns_name := full_ns_path
        ns_created := true
        ns_code := o (.nsCreate ns_name parent_ns full_ns_path)
        kv_results := (List.range num_kvs).map (fun j =>
          KvResult.mk (mount_pfx ++ "-" ++ padNum width_kv (start_index + j))
            (o (.mountCreate (nsForKv full_ns_path)
              (mount_pfx ++ "-" ++ padNum width_kv (start_index + j))))) } := by
  unfold create_namespace_with_kvs
  simp [List.map_map]

theorem tree_trace_eq (o : Oracle) (parent_name ns_pfx mount_pfx : String)
    (start_index num_kvs ns_level2 width_parent width_child width_kv : Nat) :
    (create_parent_namespace_tree o parent_name ns_pfx mount_pfx
        start_index num_kvs ns_level2 width_parent width_child width_kv).2 =
      (create_namespace_with_kvs o parent_name "root" ("root/" ++ parent_name) mount_pfx
        start_index num_kvs width_kv).2 ++
      ((List.range ns_level2).map (fun j =>
        (create_namespace_with_kvs o (parent_name ++ "-" ++ padNum width_child (start_index + j))
          parent_name
          ("root/" ++ parent_name ++ "/" ++ (parent_name ++ "-" ++ padNum width_child (start_index + j)))
          mount_pfx start_index num_kvs width_kv).2)).flatten := by
  unfold create_parent_namespace_tree
  by_cases h : 0 < ns_level2
  · simp only [if_pos h, List.map_map]
    rfl
  · have h0 : ns_level2 = 0 := by omega
    subst h0
    simp

theorem tree_result_eq (o : Oracle) (parent_name ns_pfx mount_pfx : String)
    (start_index num_kvs ns_level2 width_parent width_child width_kv : Nat) :
    (create_parent_namespace_tree o parent_name ns_pfx mount_pfx
        start_index num_kvs ns_level2 width_parent width_child width_kv).1 =
      { parent := parent_name
        parent_created := true
        children := (List.range ns_level2).map (fun j =>
          (create_namespace_with_kvs o (parent_name ++ "-" ++ padNum width_child (start_index + j))
            parent_name
            ("root/" ++ parent_name ++ "/" ++ (parent_name ++ "-" ++ padNum width_child (start_index + j)))
            mount_pfx start_index num_kvs width_kv).1) } := by
  unfold create_parent_namespace_tree
  by_cases h : 0 < ns_level2
  · simp only [if_pos h, List.map_map]
    rw [unit_result_eq]
    rfl
  · have h0 : ns_level2 = 0 := by omega
    subst h0
    simp [unit_result_eq]

/-! Helper lemmas: counting requests in traces. -/

theorem length_filter_flatten (p : Event → Bool) (L : List (List Event)) :
    (L.flatten.filter p).length = (L.map (fun t => (t.filter p).length)).sum := by
  induction L with
  | nil => rfl
  | cons t L ih =>
    simp [List.filter_append, ih]
    rfl

theorem filter_mountEvents (p : Event → Bool) (s : String) (g : Nat → String) (x : Nat)
    (hp : ∀ s m, p (Event.mountCreate s m) = false) :
    ((List.range x).map (fun j => Event.mountCreate s (g j))).filter p = [] := by
  refine List.filter_eq_nil_iff.mpr ?_
  intro a ha
  rcases List.mem_map.mp ha with ⟨j, _, rfl⟩
  simp [hp]

theorem countNs_unit (o : Oracle) (ns_name parent_ns full_ns_path mount_pfx : String)
    (start_index num_kvs width_kv : Nat) :
    ((create_namespace_with_kvs o ns_name parent_ns full_ns_path mount_pfx
      start_index num_kvs width_kv).2.filter isNsEvent).length = 1 := by
  rw [unit_trace_eq, List.filter_cons]
  rw [filter_mountEvents isNsEvent _ _ _ (fun _ _ => rfl)]
  simp [isNsEvent]

theorem countMounts_unit (o : Oracle) (ns_name parent_ns full_ns_path mount_pfx : String)
    (start_index num_kvs width_kv : Nat) :
    ((create_namespace_with_kvs o ns_name parent_ns full_ns_path mount_pfx
      start_index num_kvs width_kv).2.filter isMountEvent).length = num_kvs := by
  rw [unit_trace_eq, List.filter_cons]
  have hall : ((List.range num_kvs).map (fun j =>
      Event.mountCreate (nsForKv full_ns_path)
        (mount_pfx ++ "-" ++ padNum width_kv (start_index + j)))).filter isMountEvent =
      (List.range num_kvs).map (fun j =>
        Event.mountCreate (nsForKv full_ns_path)
          (mount_pfx ++ "-" ++ padNum width_kv (start_index + j))) := by
    refine List.filter_eq_self.mpr ?_
    intro a ha
    rcases List.mem_map.mp ha with ⟨j, _, rfl⟩
    rfl
  simp [isMountEvent, hall]

theorem countParent_unit (o : Oracle) (ns_name parent_ns full_ns_path mount_pfx : String)
    (start_index num_kvs width_kv : Nat) :
    ((create_namespace_with_kvs o ns_name parent_ns full_ns_path mount_pfx
      start_index num_kvs width_kv).2.filter isParentCreate).length =
      (if parent_ns = "root" then 1 else 0) := by
  rw [unit_trace_eq, List.filter_cons]
  rw [filter_mountEvents isParentCreate _ _ _ (fun _ _ => rfl)]
  by_cases h : parent_ns = "root"
  · simp [isParentCreate, h]
  · simp [isParentCreate, h]

theorem countChild_unit (o : Oracle) (ns_name parent_ns full_ns_path mount_pfx : String)
    (start_index num_kvs width_kv : Nat) :
    ((create_namespace_with_kvs o ns_name parent_ns full_ns_path mount_pfx
      start_index num_kvs width_kv).2.filter isChildCreate).length =
      (if parent_ns = "root" then 0 else 1) := by
  rw [unit_trace_eq, List.filter_cons]
  rw [filter_mountEvents isChildCreate _ _ _ (fun _ _ => rfl)]
  by_cases h : parent_ns = "root"
  · simp [isChildCreate, h]
  · simp [isChildCreate, h]

theorem mountScopesOf_nsCons (nm p f : String) (l : List Event) :
    mountScopesOf (Event.nsCreate nm p f :: l) = mountScopesOf l := rfl

theorem mountScopesOf_mountCons (s m : String) (l : List Event) :
    mountScopesOf (Event.mountCreate s m :: l) = s :: mountScopesOf l := rfl

theorem mountNamesOf_nsCons (nm p f : String) (l : List Event) :
    mountNamesOf (Event.nsCreate nm p f :: l) = mountNamesOf l := rfl

theorem mountNamesOf_mountCons (s m : String) (l : List Event) :
    mountNamesOf (Event.mountCreate s m :: l) = m :: mountNamesOf l := rfl

theorem nsNamesOf_nsCons (nm p f : String) (l : List Event) :
    nsNamesOf (Event.nsCreate nm p f :: l) = nm :: nsNamesOf l := rfl

theorem nsNamesOf_mountCons (s m : String) (l : List Event) :
    nsNamesOf (Event.mountCreate s m :: l) = nsNamesOf l := rfl

theorem mountScopesOf_map_mounts (s : String) (g : Nat → String) (l : List Nat) :
    mountScopesOf (l.map (fun j => Event.mountCreate s (g j))) = List.replicate l.length s := by
  induction l with
  | nil => rfl
  | cons a l ih => simp [mountScopesOf_mountCons, ih, List.replicate_succ]

theorem mountNamesOf_map_mounts (s : String) (g : Nat → String) (l : List Nat) :
    mountNamesOf (l.map (fun j => Event.mountCreate s (g j))) = l.map g := by
  induction l with
  | nil => rfl
  | cons a l ih => simp [mountNamesOf_mountCons, ih]

theorem nsNamesOf_map_mounts (s : String) (g : Nat → String) (l : List Nat) :
    nsNamesOf (l.map (fun j => Event.mountCreate s (g j))) = [] := by
  induction l with
  | nil => rfl
  | cons a l ih => simpa [nsNamesOf_mountCons] using ih

theorem mountScopes_unit (o : Oracle) (ns_name parent_ns full_ns_path mount_pfx : String)
    (start_index num_kvs width_kv : Nat) :
    mountScopesOf (create_namespace_with_kvs o ns_name parent_ns full_ns_path mount_pfx
      start_index num_kvs width_kv).2 = List.replicate num_kvs (nsForKv full_ns_path) := by
  rw [unit_trace_eq, mountScopesOf_nsCons, mountScopesOf_map_mounts]
  rw [List.length_range]

theorem mountNames_unit (o : Oracle) (ns_name parent_ns full_ns_path mount_pfx : String)
    (start_index num_kvs width_kv : Nat) :
    mountNamesOf (create_namespace_with_kvs o ns_name parent_ns full_ns_path mount_pfx
      start_index num_kvs width_kv).2 =
      (List.range num_kvs).map (fun j => mount_pfx ++ "-" ++ padNum width_kv (start_index + j)) := by
  rw [unit_trace_eq, mountNamesOf_nsCons, mountNamesOf_map_mounts]

theorem nsNames_unit (o : Oracle) (ns_name parent_ns full_ns_path mount_pfx : String)
    (start_index num_kvs width_kv : Nat) :
    nsNamesOf (create_namespace_with_kvs o ns_name parent_ns full_ns_path mount_pfx
      start_index num_kvs width_kv).2 = [ns_name] := by
  rw [unit_trace_eq, nsNamesOf_nsCons, nsNamesOf_map_mounts]

theorem sum_map_const_nat (l : List Nat) (c : Nat) : (l.map (fun _ => c)).sum = l.length * c := by
  simp [List.map_const', List.sum_replicate, smul_eq_mul]

theorem unit_trace_oracle_free (o₁ o₂ : Oracle)
    (ns_name parent_ns full_ns_path mount_pfx : String) (start_index num_kvs width_kv : Nat) :
    (create_namespace_with_kvs o₁ ns_name parent_ns full_ns_path mount_pfx
      start_index num_kvs width_kv).2 =
    (create_namespace_with_kvs o₂ ns_name parent_ns full_ns_path mount_pfx
      start_index num_kvs width_kv).2 := by
  rw [unit_trace_eq, unit_trace_eq]

theorem tree_trace_oracle_free (o₁ o₂ : Oracle) (parent_name ns_pfx mount_pfx : String)
    (start_index num_kvs ns_level2 width_parent width_child width_kv : Nat) :
    (create_parent_namespace_tree o₁ parent_name ns_pfx mount_pfx
      start_index num_kvs ns_level2 width_parent width_child width_kv).2 =
    (create_parent_namespace_tree o₂ parent_name ns_pfx mount_pfx
      start_index num_kvs ns_level2 width_parent width_child width_kv).2 := by
  rw [tree_trace_eq, tree_trace_eq]
  congr 1
  · exact unit_trace_oracle_free o₁ o₂ _ _ _ _ _ _ _
  · congr 1
    refine List.map_congr_left ?_
    intro j _
    exact unit_trace_oracle_free o₁ o₂ _ _ _ _ _ _ _

theorem filter_length_tree (p : Event → Bool) (o : Oracle)
    (parent_name ns_pfx mount_pfx : String)
    (start_index num_kvs ns_level2 width_parent width_child width_kv : Nat) :
    ((create_parent_namespace_tree o parent_name ns_pfx mount_pfx
      start_index num_kvs ns_level2 width_parent width_child width_kv).2.filter p).length =
    ((create_namespace_with_kvs o parent_name "root" ("root/" ++ parent_name) mount_pfx
      start_index num_kvs width_kv).2.filter p).length +
    ((List.range ns_level2).map (fun j =>
      (((create_namespace_with_kvs o (parent_name ++ "-" ++ padNum width_child (start_index + j))
        parent_name
        ("root/" ++ parent_name ++ "/" ++ (parent_name ++ "-" ++ padNum width_child (start_index + j)))
        mount_pfx start_index num_kvs width_kv).2).filter p).length)).sum := by
  rw [tree_trace_eq, List.filter_append, List.length_append, length_filter_flatten, List.map_map]
  rfl

theorem countNs_tree (o : Oracle) (parent_name ns_pfx mount_pfx : String)
    (start_index num_kvs ns_level2 width_parent width_child width_kv : Nat) :
    ((create_parent_namespace_tree o parent_name ns_pfx mount_pfx
      start_index num_kvs ns_level2 width_parent width_child width_kv).2.filter
        isNsEvent).length = 1 + ns_level2 := by
  rw [filter_length_tree]
  have hp : ((create_namespace_with_kvs o parent_name "root" ("root/" ++ parent_name) mount_pfx
      start_index num_kvs width_kv).2.filter isNsEvent).length = 1 :=
    countNs_unit o parent_name "root" ("root/" ++ parent_name) mount_pfx
      start_index num_kvs width_kv
  rw [hp, List.map_congr_left (fun j _ => countNs_unit o
    (parent_name ++ "-" ++ padNum width_child (start_index + j)) parent_name
    ("root/" ++ parent_name ++ "/" ++ (parent_name ++ "-" ++ padNum width_child (start_index + j)))
    mount_pfx start_index num_kvs width_kv)]
  rw [sum_map_const_nat, List.length_range]
  omega

theorem countMounts_tree (o : Oracle) (parent_name ns_pfx mount_pfx : String)
    (start_index num_kvs ns_level2 width_parent width_child width_kv : Nat) :
    ((create_parent_namespace_tree o parent_name ns_pfx mount_pfx
      start_index num_kvs ns_level2 width_parent width_child width_kv).2.filter
        isMountEvent).length = (1 + ns_level2) * num_kvs := by
  rw [filter_length_tree]
  have hp : ((create_namespace_with_kvs o parent_name "root" ("root/" ++ parent_name) mount_pfx
      start_index num_kvs width_kv).2.filter isMountEvent).length = num_kvs :=
    countMounts_unit o parent_name "root" ("root/" ++ parent_name) mount_pfx
      start_index num_kvs width_kv
  rw [hp, List.map_congr_left (fun j _ => countMounts_unit o
    (parent_name ++ "-" ++ padNum width_child (start_index + j)) parent_name
    ("root/" ++ parent_name ++ "/" ++ (parent_name ++ "-" ++ padNum width_child (start_index + j)))
    mount_pfx start_index num_kvs width_kv)]
  rw [sum_map_const_nat, List.length_range]
  ring

theorem countParent_tree (o : Oracle) (parent_name ns_pfx mount_pfx : String)
    (start_index num_kvs ns_level2 width_parent width_child width_kv : Nat)
    (h : parent_name ≠ "root") :
    ((create_parent_namespace_tree o parent_name ns_pfx mount_pfx
      start_index num_kvs ns_level2 width_parent width_child width_kv).2.filter
        isParentCreate).length = 1 := by
  rw [filter_length_tree]
  have hp := countParent_unit o parent_name "root" ("root/" ++ parent_name) mount_pfx
    start_index num_kvs width_kv
  rw [if_pos rfl] at hp
  have hmap : (List.range ns_level2).map (fun j =>
      (((create_namespace_with_kvs o (parent_name ++ "-" ++ padNum width_child (start_index + j))
        parent_name
        ("root/" ++ parent_name ++ "/" ++ (parent_name ++ "-" ++ padNum width_child (start_index + j)))
        mount_pfx start_index num_kvs width_kv).2).filter isParentCreate).length) =
      (List.range ns_level2).map (fun _ => 0) := by
    refine List.map_congr_left ?_
    intro j _
    have hc := countParent_unit o
      (parent_name ++ "-" ++ padNum width_child (start_index + j)) parent_name
      ("root/" ++ parent_name ++ "/" ++ (parent_name ++ "-" ++ padNum width_child (start_index + j)))
      mount_pfx start_index num_kvs width_kv
    rwa [if_neg h] at hc
  rw [hp, hmap, sum_map_const_nat]
  omega

theorem countChild_tree (o : Oracle) (parent_name ns_pfx mount_pfx : String)
    (start_index num_kvs ns_level2 width_parent width_child width_kv : Nat)
    (h : parent_name ≠ "root") :
    ((create_parent_namespace_tree o parent_name ns_pfx mount_pfx
      start_index num_kvs ns_level2 width_parent width_child width_kv).2.filter
        isChildCreate).length = ns_level2 := by
  rw [filter_length_tree]
  have hp := countChild_unit o parent_name "root" ("root/" ++ parent_name) mount_pfx
    start_index num_kvs width_kv
  rw [if_pos rfl] at hp
  have hmap : (List.range ns_level2).map (fun j =>
      (((create_namespace_with_kvs o (parent_name ++ "-" ++ padNum width_child (start_index + j))
        parent_name
        ("root/" ++ parent_name ++ "/" ++ (parent_name ++ "-" ++ padNum width_child (start_index + j)))
        mount_pfx start_index num_kvs width_kv).2).filter isChildCreate).length) =
      (List.range ns_level2).map (fun _ => 1) := by
    refine List.map_congr_left ?_
    intro j _
    have hc := countChild_unit o
      (parent_name ++ "-" ++ padNum width_child (start_index + j)) parent_name
      ("root/" ++ parent_name ++ "/" ++ (parent_name ++ "-" ++ padNum width_child (start_index + j)))
      mount_pfx start_index num_kvs width_kv
    rwa [if_neg h] at hc
  rw [hp, hmap, sum_map_const_nat, List.length_range]
  omega

theorem filter_length_depth3 (p : Event → Bool) (o : Oracle) (ns_pfx mount_pfx : String)
    (start_index n x ns_level2 width_parent width_child width_kv : Nat) :
    ((((depth3Trees o ns_pfx mount_pfx start_index n x ns_level2
      width_parent width_child width_kv).map Prod.snd).flatten.filter p).length) =
    ((List.range n).map (fun i =>
      (((create_parent_namespace_tree o (ns_pfx ++ padNum width_parent (start_index + i))
        ns_pfx mount_pfx start_index x ns_level2
        width_parent width_child width_kv).2).filter p).length)).sum := by
  unfold depth3Trees
  rw [List.map_map, length_filter_flatten, List.map_map]
  rfl

theorem mainRun_invalid (cfg : Config) (transport : Option Oracle)
    (h : cfg.addr = "" ∨ cfg.token = "" ∨ cfg.namespaces ≤ 0 ∨ cfg.kvs < 0) :
    mainRun cfg transport = (2, []) := by
  unfold mainRun
  by_cases h1 : cfg.addr = "" ∨ cfg.token = ""
  · rw [if_pos h1]
  · rw [if_neg h1, if_pos (by tauto)]

theorem mainRun_valid_none (cfg : Config)
    (h1 : ¬(cfg.addr = "" ∨ cfg.token = "")) (h2 : ¬(cfg.namespaces ≤ 0 ∨ cfg.kvs < 0)) :
    mainRun cfg none = (1, []) := by
  unfold mainRun
  rw [if_neg h1, if_neg h2]

theorem mainRun_valid_some_depth2 (cfg : Config) (o : Oracle)
    (h1 : ¬(cfg.addr = "" ∨ cfg.token = "")) (h2 : ¬(cfg.namespaces ≤ 0 ∨ cfg.kvs < 0))
    (hd : cfg.depth = 2) :
    mainRun cfg (some o) = (0, (depth2Units o (Config.ns_pfx cfg) (Config.mount_pfx cfg)
      cfg.start_index cfg.namespaces.toNat cfg.kvs.toNat
      (max 3 (Nat.repr (cfg.start_index + cfg.namespaces.toNat - 1)).length)
      (width_kv_of cfg.start_index cfg.kvs.toNat)).map Prod.snd) := by
  unfold mainRun
  rw [if_neg h1, if_neg h2]
  simp [hd]

theorem mainRun_valid_some_not_depth2 (cfg : Config) (o : Oracle)
    (h1 : ¬(cfg.addr = "" ∨ cfg.token = "")) (h2 : ¬(cfg.namespaces ≤ 0 ∨ cfg.kvs < 0))
    (hd : ¬ cfg.depth = 2) :
    mainRun cfg (some o) = (0, (depth3Trees o (Config.ns_pfx cfg) (Config.mount_pfx cfg)
      cfg.start_index cfg.namespaces.toNat cfg.kvs.toNat cfg.ns_level2
      (max 3 (Nat.repr (cfg.start_index + cfg.namespaces.toNat - 1)).length)
      (max 3 (Nat.repr (cfg.start_index + cfg.ns_level2 - 1)).length)
      (width_kv_of cfg.start_index cfg.kvs.toNat)).map Prod.snd) := by
  unfold mainRun
  rw [if_neg h1, if_neg h2]
  simp [hd]

theorem collectD2_eq_enumFrom (total : Nat) :
    ∀ (outs : List (String × FutureOutcome UnitResult)) (c : Nat),
      collectD2 total outs c = (outs.enumFrom c).map (fun p =>
        match p.2.2 with
        | .ok _ => LogLine.progressD2 (p.1 + 1) total
        | .exc e => LogLine.exception p.2.1 e) := by
  intro outs
  induction outs with
  | nil => intro c; rfl
  | cons a rest ih =>
    intro c
    obtain ⟨name, fo⟩ := a
    cases fo <;> simp [collectD2, List.enumFrom_cons, ih]

theorem collectD3_eq_enumFrom (total : Nat) :
    ∀ (outs : List (String × FutureOutcome TreeResult)) (c : Nat),
      collectD3 total outs c = (outs.enumFrom c).map (fun p =>
        match p.2.2 with
        | .ok r => LogLine.progressD3 (p.1 + 1) total p.2.1 r.children.length
        | .exc e => LogLine.exception p.2.1 e) := by
  intro outs
  induction outs with
  | nil => intro c; rfl
  | cons a rest ih =>
    intro c
    obtain ⟨name, fo⟩ := a
    cases fo <;> simp [collectD3, List.enumFrom_cons, ih]

theorem nsNamesOf_append (a b : List Event) :
    nsNamesOf (a ++ b) = nsNamesOf a ++ nsNamesOf b :=
  List.filterMap_append a b _

theorem mountNamesOf_append (a b : List Event) :
    mountNamesOf (a ++ b) = mountNamesOf a ++ mountNamesOf b :=
  List.filterMap_append a b _

theorem nsNamesOf_flatten (L : List (List Event)) :
    nsNamesOf L.flatten = (L.map nsNamesOf).flatten := by
  induction L with
  | nil => rfl
  | cons t L ih => simp [nsNamesOf_append, ih]

theorem mountNamesOf_flatten (L : List (List Event)) :
    mountNamesOf L.flatten = (L.map mountNamesOf).flatten := by
  induction L with
  | nil => rfl
  | cons t L ih => simp [mountNamesOf_append, ih]

theorem flatten_map_singleton {α : Type} (f : Nat → α) (l : List Nat) :
    (l.map (fun j => [f j])).flatten = l.map f := by
  induction l with
  | nil => rfl
  | cons a l ih => simp [ih]

theorem width_kv_of_eq_spec (start_index x : Nat) (hx : 0 < x) :
    width_kv_of start_index x = max 3 (digitCount (start_index + x - 1)) := by
  unfold width_kv_of
  rw [if_pos hx, repr_length_eq_digitCount]

/-! Claim theorems. -/

/-- C1: for every namespace-create and every mount-create call, the returned
HTTP status is classified identically by a single policy — 200/201/204 yield
Created, 409 AlreadyExists, 400 Rejected, and any other integer status or an
unparseable status yields Failed — and in every one of these cases processing
continues: the builder still attempts all of its mounts (its `kv_results` list
always has one entry per requested mount, whatever the namespace status). -/
theorem claim1_classification :
    (∀ code : Int, classifyNs code = classifyKv code) ∧
    (∀ code : Int, (code = 200 ∨ code = 201 ∨ code = 204) → classifyNs code = Outcome.Created) ∧
    (∀ code : Int, code = 409 → classifyNs code = Outcome.AlreadyExists) ∧
    (∀ code : Int, code = 400 → classifyNs code = Outcome.Rejected) ∧
    (∀ code : Int, code ∉ ([200, 201, 204, 409, 400] : List Int) →
      classifyNs code = Outcome.Failed) ∧
    (∀ out : String, pyInt? (out.takeRight 3) = none →
      classifyNs (parseHttpCode out).1 = Outcome.Failed) ∧
    (∀ (o : Oracle) (ns_name parent_ns full_ns_path mount_pfx : String)
      (start_index num_kvs width_kv : Nat),
      (create_namespace_with_kvs o ns_name parent_ns full_ns_path mount_pfx
        start_index num_kvs width_kv).1.kv_results.length = num_kvs) := by
  refine ⟨?_, ?_, ?_, ?_, ?_, ?_, ?_⟩
  · intro code
    unfold classifyNs classifyKv
    split_ifs <;> first | rfl | omega
  · intro code h
    unfold classifyNs
    rw [if_pos h]
  · intro code h
    unfold classifyNs
    rw [if_neg (by omega), if_pos h]
  · intro code h
    unfold classifyNs
    rw [if_neg (by omega), if_neg (by omega), if_pos h]
  · intro code h
    simp only [List.mem_cons, List.not_mem_nil, or_false] at h
    push_neg at h
    obtain ⟨h200, h201, h204, h409, h400⟩ := h
    unfold classifyNs
    rw [if_neg (by tauto), if_neg h409, if_neg h400]
  · intro out h
    simp only [parseHttpCode, h]
    decide
  · intro o ns_name parent_ns full_ns_path mount_pfx start_index num_kvs width_kv
    rw [unit_result_eq]
    simp

/-- Witness for C1 at concrete inputs: status 204 is Created, status 503 is
Failed, and an unparseable curl output is Failed. -/
theorem claim1_witness :
    classifyNs 204 = Outcome.Created ∧ classifyNs 503 = Outcome.Failed ∧
      classifyNs (parseHttpCode "curl: error").1 = Outcome.Failed :=
  ⟨claim1_classification.2.1 204 (by tauto),
   claim1_classification.2.2.2.2.1 503 (by decide),
   claim1_classification.2.2.2.2.2.1 "curl: error" (by decide)⟩

/-- C2: within a worker's sequential trace, position order encodes the
issued/returned order. Every unit trace starts with the unit's own
namespace-creation request followed only by its mount-creation requests, so a
mount-creation request is never issued before its namespace's creation request
has returned; every tree trace starts with the parent's namespace-creation
request, and each child's trace (a namespace creation followed by mounts)
comes after the whole parent unit, so a child's creation request is never
issued before the parent's creation request has been issued and returned. -/
theorem claim2_order :
    (∀ (o : Oracle) (ns_name parent_ns full_ns_path mount_pfx : String)
      (start_index num_kvs width_kv : Nat),
      ∃ ms : List Event,
        (create_namespace_with_kvs o ns_name parent_ns full_ns_path mount_pfx
          start_index num_kvs width_kv).2 =
          Event.nsCreate ns_name parent_ns full_ns_path :: ms ∧
        ∀ e ∈ ms, isMountEvent e = true) ∧
    (∀ (o : Oracle) (parent_name ns_pfx mount_pfx : String)
      (start_index num_kvs ns_level2 width_parent width_child width_kv : Nat),
      ∃ (pm : List Event) (cts : List (List Event)),
        (create_parent_namespace_tree o parent_name ns_pfx mount_pfx
          start_index num_kvs ns_level2 width_parent width_child width_kv).2 =
          Event.nsCreate parent_name "root" ("root/" ++ parent_name) :: (pm ++ cts.flatten) ∧
        (∀ e ∈ pm, isMountEvent e = true) ∧
        cts.length = ns_level2 ∧
        (∀ t ∈ cts, ∃ (nm fp : String) (ms : List Event),
          t = Event.nsCreate nm parent_name fp :: ms ∧ ∀ e ∈ ms, isMountEvent e = true)) := by
  constructor
  · intro o ns_name parent_ns full_ns_path mount_pfx start_index num_kvs width_kv
    refine ⟨_, unit_trace_eq o ns_name parent_ns full_ns_path mount_pfx
      start_index num_kvs width_kv, ?_⟩
    intro e he
    rcases List.mem_map.mp he with ⟨j, _, rfl⟩
    rfl
  · intro o parent_name ns_pfx mount_pfx start_index num_kvs ns_level2 wp wc wk
    refine ⟨((List.range num_kvs).map (fun j =>
        Event.mountCreate (nsForKv ("root/" ++ parent_name))
          (mount_pfx ++ "-" ++ padNum wk (start_index + j)))),
      ((List.range ns_level2).map (fun j =>
        (create_namespace_with_kvs o (parent_name ++ "-" ++ padNum wc (start_index + j))
          parent_name
          ("root/" ++ parent_name ++ "/" ++ (parent_name ++ "-" ++ padNum wc (start_index + j)))
          mount_pfx start_index num_kvs wk).2)), ?_, ?_, ?_, ?_⟩
    · rw [tree_trace_eq, unit_trace_eq]
      simp
    · intro e he
      rcases List.mem_map.mp he with ⟨j, _, rfl⟩
      rfl
    · simp
    · intro t ht
      rcases List.mem_map.mp ht with ⟨j, _, rfl⟩
      refine ⟨_, _, _, unit_trace_eq o _ _ _ _ _ _ _, ?_⟩
      intro e he
      rcases List.mem_map.mp he with ⟨i, _, rfl⟩
      rfl

/-- Witness for C2: the decomposition evaluated at a concrete unit build. -/
theorem claim2_witness :
    ∃ ms : List Event,
      (create_namespace_with_kvs (oracleConst 200) "ns-001" "root" "root/ns-001" "kv" 1 1 3).2 =
        Event.nsCreate "ns-001" "root" "root/ns-001" :: ms ∧
      ∀ e ∈ ms, isMountEvent e = true :=
  claim2_order.1 (oracleConst 200) "ns-001" "root" "root/ns-001" "kv" 1 1 3

/-- C3: whatever status the namespace-creation step returns, the builder
records it in `ns_code` and then attempts all `num_kvs` mount creations
unconditionally, returning a result that aggregates the namespace status plus
one (mount, status) pair per mount; the builder is a total function into a
result value, so no outcome is escalated into a program-level error, and its
mount results do not depend on the namespace responses at all. -/
theorem claim3_unit_builder :
    (∀ (o : Oracle) (ns_name parent_ns full_ns_path mount_pfx : String)
      (start_index num_kvs width_kv : Nat),
      (create_namespace_with_kvs o ns_name parent_ns full_ns_path mount_pfx
        start_index num_kvs width_kv).1.ns_code =
          o (.nsCreate ns_name parent_ns full_ns_path) ∧
      (create_namespace_with_kvs o ns_name parent_ns full_ns_path mount_pfx
        start_index num_kvs width_kv).1.kv_results.length = num_kvs ∧
      (create_namespace_with_kvs o ns_name parent_ns full_ns_path mount_pfx
        start_index num_kvs width_kv).1.kv_results =
        (List.range num_kvs).map (fun j =>
          KvResult.mk (mount_pfx ++ "-" ++ padNum width_kv (start_index + j))
            (o (.mountCreate (nsForKv full_ns_path)
              (mount_pfx ++ "-" ++ padNum width_kv (start_index + j)))))) ∧
    (∀ (o₁ o₂ : Oracle) (ns_name parent_ns full_ns_path mount_pfx : String)
      (start_index num_kvs width_kv : Nat),
      (∀ s m, o₁ (.mountCreate s m) = o₂ (.mountCreate s m)) →
      (create_namespace_with_kvs o₁ ns_name parent_ns full_ns_path mount_pfx
        start_index num_kvs width_kv).1.kv_results =
      (create_namespace_with_kvs o₂ ns_name parent_ns full_ns_path mount_pfx
        start_index num_kvs width_kv).1.kv_results) := by
  constructor
  · intro o ns_name parent_ns full_ns_path mount_pfx start_index num_kvs width_kv
    rw [unit_result_eq]
    refine ⟨rfl, by simp, rfl⟩
  · intro o₁ o₂ ns_name parent_ns full_ns_path mount_pfx start_index num_kvs width_kv h
    rw [unit_result_eq, unit_result_eq]
    simp only
    refine List.map_congr_left ?_
    intro j _
    rw [h]

/-- Witness for C3: with a service failing all namespace creations, the mount
results equal those of an all-200 service. -/
theorem claim3_witness :
    (create_namespace_with_kvs oracleNsFail "ns-001" "root" "root/ns-001" "kv" 1 2 3).1.kv_results =
    (create_namespace_with_kvs (oracleConst 200) "ns-001" "root" "root/ns-001" "kv" 1 2 3).1.kv_results :=
  claim3_unit_builder.2 oracleNsFail (oracleConst 200) "ns-001" "root" "root/ns-001" "kv" 1 2 3
    (fun _ _ => rfl)

/-- C6: the namespace-authorization-scope header used by a unit's mount-create
requests is the unit's full hierarchical path with a single leading literal
"root/" prefix removed when the path starts with it, and the full path
unchanged otherwise: the code's scope computation (startswith guard plus
first-occurrence replacement) coincides with that specification, and every
mount request of a unit build carries exactly that scope. -/
theorem claim6_mount_scope :
    (∀ fullPath : String, nsForKv fullPath = specScope fullPath) ∧
    (∀ (o : Oracle) (ns_name parent_ns full_ns_path mount_pfx : String)
      (start_index num_kvs width_kv : Nat),
      mountScopesOf (create_namespace_with_kvs o ns_name parent_ns full_ns_path mount_pfx
        start_index num_kvs width_kv).2 = List.replicate num_kvs (specScope full_ns_path)) := by
  refine ⟨nsForKv_eq_specScope, ?_⟩
  intro o ns_name parent_ns full_ns_path mount_pfx start_index num_kvs width_kv
  rw [mountScopes_unit, nsForKv_eq_specScope]

/-- C10: for every oracle (hence every HTTP status returned to the
namespace-creation request, including statuses classified as Failed), the
`ns_created` field of the unit builder's result is `true`; only the recorded
raw status `ns_code` carries the outcome. -/
theorem claim10_ns_created_always_true :
    ∀ (o : Oracle) (ns_name parent_ns full_ns_path mount_pfx : String)
      (start_index num_kvs width_kv : Nat),
      (create_namespace_with_kvs o ns_name parent_ns full_ns_path mount_pfx
        start_index num_kvs width_kv).1.ns_created = true ∧
      (create_namespace_with_kvs o ns_name parent_ns full_ns_path mount_pfx
        start_index num_kvs width_kv).1.ns_code =
          o (.nsCreate ns_name parent_ns full_ns_path) := by
  intro o ns_name parent_ns full_ns_path mount_pfx start_index num_kvs width_kv
  rw [unit_result_eq]
  exact ⟨rfl, rfl⟩

/-- C4: in the depth-3 run, exactly `n` parent trees are built; the issued
requests comprise exactly `n` parent namespace creations (scoped to "root"),
`n * ns_level2` child namespace creations (scoped to their parent's name, which
is never "root"), `n + n * ns_level2` namespace creations in total, and
`(n + n * ns_level2) * x` mount creations; within the tree of parent `i`, the
trace is the parent's own unit build followed by the child unit builds in
ascending child-index order; and the traces — hence which requests are issued —
do not depend on the service's responses at all, so the parent's outcome never
gates the children. -/
theorem claim4_depth3_counts :
    ∀ (o : Oracle) (ns_pfx mount_pfx : String)
      (start_index n x ns_level2 width_parent width_child width_kv : Nat),
      (depth3Trees o ns_pfx mount_pfx start_index n x ns_level2
        width_parent width_child width_kv).length = n ∧
      countNsCreates (((depth3Trees o ns_pfx mount_pfx start_index n x ns_level2
        width_parent width_child width_kv).map Prod.snd).flatten) = n + n * ns_level2 ∧
      ((((depth3Trees o ns_pfx mount_pfx start_index n x ns_level2
        width_parent width_child width_kv).map Prod.snd).flatten.filter
          isParentCreate).length = n) ∧
      ((((depth3Trees o ns_pfx mount_pfx start_index n x ns_level2
        width_parent width_child width_kv).map Prod.snd).flatten.filter
          isChildCreate).length = n * ns_level2) ∧
      countMounts (((depth3Trees o ns_pfx mount_pfx start_index n x ns_level2
        width_parent width_child width_kv).map Prod.snd).flatten) = (n + n * ns_level2) * x ∧
      (∀ i, i < n →
        ((depth3Trees o ns_pfx mount_pfx start_index n x ns_level2
          width_parent width_child width_kv).map Prod.snd)[i]? =
          some ((create_namespace_with_kvs o (ns_pfx ++ padNum width_parent (start_index + i))
              "root" ("root/" ++ (ns_pfx ++ padNum width_parent (start_index + i)))
              mount_pfx start_index x width_kv).2 ++
            ((List.range ns_level2).map (fun j =>
              (create_namespace_with_kvs o
                ((ns_pfx ++ padNum width_parent (start_index + i)) ++ "-" ++
                  padNum width_child (start_index + j))
                (ns_pfx ++ padNum width_parent (start_index + i))
                ("root/" ++ (ns_pfx ++ padNum width_parent (start_index + i)) ++ "/" ++
                  ((ns_pfx ++ padNum width_parent (start_index + i)) ++ "-" ++
                    padNum width_child (start_index + j)))
                mount_pfx start_index x width_kv).2)).flatten)) ∧
      (∀ o₂ : Oracle,
        (depth3Trees o₂ ns_pfx mount_pfx start_index n x ns_level2
          width_parent width_child width_kv).map Prod.snd =
        (depth3Trees o ns_pfx mount_pfx start_index n x ns_level2
          width_parent width_child width_kv).map Prod.snd) := by
  intro o ns_pfx mount_pfx start_index n x ns_level2 width_parent width_child width_kv
  refine ⟨?_, ?_, ?_, ?_, ?_, ?_, ?_⟩
  · unfold depth3Trees
    simp
  · show ((((depth3Trees o ns_pfx mount_pfx start_index n x ns_level2
      width_parent width_child width_kv).map Prod.snd).flatten.filter isNsEvent).length) =
      n + n * ns_level2
    rw [filter_length_depth3]
    have hmap : (List.range n).map (fun i =>
        (((create_parent_namespace_tree o (ns_pfx ++ padNum width_parent (start_index + i))
          ns_pfx mount_pfx start_index x ns_level2
          width_parent width_child width_kv).2).filter isNsEvent).length) =
        (List.range n).map (fun _ => 1 + ns_level2) :=
      List.map_congr_left (fun i _ => countNs_tree o _ ns_pfx mount_pfx
        start_index x ns_level2 width_parent width_child width_kv)
    rw [hmap, sum_map_const_nat, List.length_range]
    ring
  · rw [filter_length_depth3]
    have hmap : (List.range n).map (fun i =>
        (((create_parent_namespace_tree o (ns_pfx ++ padNum width_parent (start_index + i))
          ns_pfx mount_pfx start_index x ns_level2
          width_parent width_child width_kv).2).filter isParentCreate).length) =
        (List.range n).map (fun _ => 1) :=
      List.map_congr_left (fun i _ => countParent_tree o _ ns_pfx mount_pfx
        start_index x ns_level2 width_parent width_child width_kv
        (append_padNum_ne_root ns_pfx width_parent (start_index + i)))
    rw [hmap, sum_map_const_nat, List.length_range]
    omega
  · rw [filter_length_depth3]
    have hmap : (List.range n).map (fun i =>
        (((create_parent_namespace_tree o (ns_pfx ++ padNum width_parent (start_index + i))
          ns_pfx mount_pfx start_index x ns_level2
          width_parent width_child width_kv).2).filter isChildCreate).length) =
        (List.range n).map (fun _ => ns_level2) :=
      List.map_congr_left (fun i _ => countChild_tree o _ ns_pfx mount_pfx
        start_index x ns_level2 width_parent width_child width_kv
        (append_padNum_ne_root ns_pfx width_parent (start_index + i)))
    rw [hmap, sum_map_const_nat, List.length_range]
  · show ((((depth3Trees o ns_pfx mount_pfx start_index n x ns_level2
      width_parent width_child width_kv).map Prod.snd).flatten.filter isMountEvent).length) =
      (n + n * ns_level2) * x
    rw [filter_length_depth3]
    have hmap : (List.range n).map (fun i =>
        (((create_parent_namespace_tree o (ns_pfx ++ padNum width_parent (start_index + i))
          ns_pfx mount_pfx start_index x ns_level2
          width_parent width_child width_kv).2).filter isMountEvent).length) =
        (List.range n).map (fun _ => (1 + ns_level2) * x) :=
      List.map_congr_left (fun i _ => countMounts_tree o _ ns_pfx mount_pfx
        start_index x ns_level2 width_parent width_child width_kv)
    rw [hmap, sum_map_const_nat, List.length_range]
    ring
  · intro i hi
    unfold depth3Trees
    rw [List.map_map, List.getElem?_map, List.getElem?_range hi, Option.map_some']
    simp only [Function.comp_apply]
    rw [tree_trace_eq]
  · intro o₂
    unfold depth3Trees
    rw [List.map_map, List.map_map]
    refine List.map_congr_left ?_
    intro i _
    exact tree_trace_oracle_free o₂ o _ ns_pfx mount_pfx
      start_index x ns_level2 width_parent width_child width_kv

/-- Witness for C4 at `n = 2`, `ns_level2 = 3`, `x = 1`: 2 parent creates,
2 + 2 * 3 namespace creates in total, (2 + 2 * 3) * 1 mount creates, and the
first tree's trace is defined. -/
theorem claim4_witness :
    (depth3Trees (oracleConst 200) "ns" "kv" 1 2 1 3 3 3 3).length = 2 ∧
    countNsCreates (((depth3Trees (oracleConst 200) "ns" "kv" 1 2 1 3 3 3 3).map
      Prod.snd).flatten) = 2 + 2 * 3 ∧
    ((((depth3Trees (oracleConst 200) "ns" "kv" 1 2 1 3 3 3 3).map Prod.snd).flatten.filter
      isParentCreate).length = 2) ∧
    countMounts (((depth3Trees (oracleConst 200) "ns" "kv" 1 2 1 3 3 3 3).map
      Prod.snd).flatten) = (2 + 2 * 3) * 1 ∧
    (((depth3Trees (oracleConst 200) "ns" "kv" 1 2 1 3 3 3 3).map Prod.snd)[0]?.isSome
      = true) := by
  refine ⟨(claim4_depth3_counts (oracleConst 200) "ns" "kv" 1 2 1 3 3 3 3).1,
    (claim4_depth3_counts (oracleConst 200) "ns" "kv" 1 2 1 3 3 3 3).2.1,
    (claim4_depth3_counts (oracleConst 200) "ns" "kv" 1 2 1 3 3 3 3).2.2.1,
    (claim4_depth3_counts (oracleConst 200) "ns" "kv" 1 2 1 3 3 3 3).2.2.2.2.1, ?_⟩
  rw [(claim4_depth3_counts (oracleConst 200) "ns" "kv" 1 2 1 3 3 3 3).2.2.2.2.2.1 0
    (by decide)]
  rfl

/-- C7: the process exits with code 2 exactly on invalid configuration
(missing address or token, `n <= 0`, or `x < 0`), detected before any creation
request is issued (the trace list is empty); with a valid configuration it
exits with code 1 when the HTTP transport cannot be invoked, and with code 0
whenever the transport works, whatever statuses the service returns (so any
number of Failed request outcomes still yields exit code 0); exit code 1
occurs only when the transport is unavailable. -/
theorem claim7_exit_codes :
    ∀ (cfg : Config) (transport : Option Oracle),
      ((cfg.addr = "" ∨ cfg.token = "" ∨ cfg.namespaces ≤ 0 ∨ cfg.kvs < 0) →
        mainRun cfg transport = (2, [])) ∧
      (¬(cfg.addr = "" ∨ cfg.token = "" ∨ cfg.namespaces ≤ 0 ∨ cfg.kvs < 0) →
        mainRun cfg none = (1, [])) ∧
      (∀ o : Oracle, ¬(cfg.addr = "" ∨ cfg.token = "" ∨ cfg.namespaces ≤ 0 ∨ cfg.kvs < 0) →
        (mainRun cfg (some o)).1 = 0) ∧
      ((mainRun cfg transport).1 = 1 → transport = none) := by
  intro cfg transport
  refine ⟨mainRun_invalid cfg transport, ?_, ?_, ?_⟩
  · intro h
    exact mainRun_valid_none cfg (by tauto) (by tauto)
  · intro o h
    by_cases hd : cfg.depth = 2
    · rw [mainRun_valid_some_depth2 cfg o (by tauto) (by tauto) hd]
    · rw [mainRun_valid_some_not_depth2 cfg o (by tauto) (by tauto) hd]
  · intro h
    cases transport with
    | none => rfl
    | some o =>
      exfalso
      by_cases hv : (cfg.addr = "" ∨ cfg.token = "" ∨ cfg.namespaces ≤ 0 ∨ cfg.kvs < 0)
      · rw [mainRun_invalid cfg (some o) hv] at h
        simp at h
      · by_cases hd : cfg.depth = 2
        · rw [mainRun_valid_some_depth2 cfg o (by tauto) (by tauto) hd] at h
          simp at h
        · rw [mainRun_valid_some_not_depth2 cfg o (by tauto) (by tauto) hd] at h
          simp at h

/-- Witness for C7: the invalid configuration (`n = 0`) exits 2 with no
requests even though the transport works; a valid configuration with a missing
transport exits 1; a valid configuration whose every request fails with HTTP
500 still exits 0. -/
theorem claim7_witness :
    mainRun invalidConfig (some (oracleConst 200)) = (2, []) ∧
    mainRun sampleConfig2 none = (1, []) ∧
    (mainRun sampleConfig2 (some (oracleConst 500))).1 = 0 :=
  ⟨(claim7_exit_codes invalidConfig (some (oracleConst 200))).1 (by decide),
   (claim7_exit_codes sampleConfig2 none).2.1 (by decide),
   (claim7_exit_codes sampleConfig2 (some (oracleConst 500))).2.2.1 (oracleConst 500)
     (by decide)⟩

/-- C8: the collection loop consumes the submitted futures in whatever
completion order they arrive, emits exactly one line per submitted unit/tree
(so it returns only after all have completed or raised, with no retry), the
line for position `i` is a function of that future's own outcome alone (an
exception is logged together with the unit's identifying name and affects no
sibling), for both the depth-2 and depth-3 loops. -/
theorem claim8_collection :
    ∀ (total : Nat) (outsD2 : List (String × FutureOutcome UnitResult))
      (outsD3 : List (String × FutureOutcome TreeResult)),
      collectD2 total outsD2 0 = outsD2.enum.map (fun p =>
        match p.2.2 with
        | .ok _ => LogLine.progressD2 (p.1 + 1) total
        | .exc e => LogLine.exception p.2.1 e) ∧
      (collectD2 total outsD2 0).length = outsD2.length ∧
      collectD3 total outsD3 0 = outsD3.enum.map (fun p =>
        match p.2.2 with
        | .ok r => LogLine.progressD3 (p.1 + 1) total p.2.1 r.children.length
        | .exc e => LogLine.exception p.2.1 e) ∧
      (collectD3 total outsD3 0).length = outsD3.length := by
  intro total outsD2 outsD3
  refine ⟨collectD2_eq_enumFrom total outsD2 0, ?_, collectD3_eq_enumFrom total outsD3 0, ?_⟩
  · rw [collectD2_eq_enumFrom total outsD2 0]
    simp
  · rw [collectD3_eq_enumFrom total outsD3 0]
    simp

/-- C5: name construction. In a validated run, the depth-2 unit at index `i`
creates the namespace `nsPrefix ++ "-" ++ zero-padded (startIndex + i)` and the
mounts `mountPrefix ++ "-" ++ zero-padded (startIndex + j)` for
`j < x`; the depth-3 tree at index `i` creates the parent
`nsPrefix ++ zero-padded (startIndex + i)` (no separator) and the children
`parentName ++ "-" ++ zero-padded (startIndex + j)` for `j < ns_level2`, each
namespace getting the same mount names; and every tier's zero-padding width is
`max 3 (digitCount (startIndex + count - 1))`, computed once in `main` before
submission (for the mount tier the width formula is instantiated only when at
least one mount name is rendered — with `x = 0` no mount name exists). -/
theorem claim5_naming :
    ∀ (o : Oracle) (cfg : Config),
      cfg.addr ≠ "" → cfg.token ≠ "" → 0 < cfg.namespaces → 0 ≤ cfg.kvs →
      (cfg.depth = 2 →
        ∀ i t, i < cfg.namespaces.toNat →
          ((mainRun cfg (some o)).2)[i]? = some t →
          nsNamesOf t = [Config.ns_pfx cfg ++ "-" ++
            padNum (max 3 (digitCount (cfg.start_index + cfg.namespaces.toNat - 1)))
              (cfg.start_index + i)] ∧
          mountNamesOf t = (List.range cfg.kvs.toNat).map (fun j =>
            Config.mount_pfx cfg ++ "-" ++
              padNum (max 3 (digitCount (cfg.start_index + cfg.kvs.toNat - 1)))
                (cfg.start_index + j))) ∧
      (cfg.depth = 3 →
        ∀ i t, i < cfg.namespaces.toNat →
          ((mainRun cfg (some o)).2)[i]? = some t →
          nsNamesOf t = (Config.ns_pfx cfg ++
              padNum (max 3 (digitCount (cfg.start_index + cfg.namespaces.toNat - 1)))
                (cfg.start_index + i)) ::
            (List.range cfg.ns_level2).map (fun j =>
              (Config.ns_pfx cfg ++
                padNum (max 3 (digitCount (cfg.start_index + cfg.namespaces.toNat - 1)))
                  (cfg.start_index + i)) ++ "-" ++
                padNum (max 3 (digitCount (cfg.start_index + cfg.ns_level2 - 1)))
                  (cfg.start_index + j)) ∧
          mountNamesOf t = (List.replicate (cfg.ns_level2 + 1)
            ((List.range cfg.kvs.toNat).map (fun j =>
              Config.mount_pfx cfg ++ "-" ++
                padNum (max 3 (digitCount (cfg.start_index + cfg.kvs.toNat - 1)))
                  (cfg.start_index + j)))).flatten) := by
  intro o cfg ha ht0 hn hx
  have h1 : ¬(cfg.addr = "" ∨ cfg.token = "") := by tauto
  have h2 : ¬(cfg.namespaces ≤ 0 ∨ cfg.kvs < 0) := by omega
  have hkvnames : ∀ mp : String, (List.range cfg.kvs.toNat).map (fun j =>
      mp ++ "-" ++ padNum (width_kv_of cfg.start_index cfg.kvs.toNat) (cfg.start_index + j)) =
      (List.range cfg.kvs.toNat).map (fun j =>
        mp ++ "-" ++ padNum (max 3 (digitCount (cfg.start_index + cfg.kvs.toNat - 1)))
          (cfg.start_index + j)) := by
    intro mp
    refine List.map_congr_left ?_
    intro j hj
    have hxpos : 0 < cfg.kvs.toNat := by
      have := List.mem_range.mp hj
      omega
    rw [width_kv_of_eq_spec _ _ hxpos]
  constructor
  · intro hd i t hi htr
    rw [mainRun_valid_some_depth2 cfg o h1 h2 hd] at htr
    unfold depth2Units at htr
    rw [List.map_map, List.getElem?_map, List.getElem?_range hi, Option.map_some'] at htr
    simp only [Function.comp_apply] at htr
    injection htr with htr
    subst htr
    constructor
    · rw [nsNames_unit]
      rw [repr_length_eq_digitCount]
    · rw [mountNames_unit]
      exact hkvnames (Config.mount_pfx cfg)
  · intro hd i t hi htr
    have hd2 : ¬ cfg.depth = 2 := by omega
    rw [mainRun_valid_some_not_depth2 cfg o h1 h2 hd2] at htr
    unfold depth3Trees at htr
    rw [List.map_map, List.getElem?_map, List.getElem?_range hi, Option.map_some'] at htr
    simp only [Function.comp_apply] at htr
    injection htr with htr
    subst htr
    constructor
    · rw [tree_trace_eq, nsNamesOf_append, nsNames_unit, nsNamesOf_flatten, List.map_map]
      have hchild : (List.range cfg.ns_level2).map (nsNamesOf ∘ (fun j =>
          (create_namespace_with_kvs o
            ((Config.ns_pfx cfg ++
              padNum (max 3 (Nat.repr (cfg.start_index + cfg.namespaces.toNat - 1)).length)
                (cfg.start_index + i)) ++ "-" ++
              padNum (max 3 (Nat.repr (cfg.start_index + cfg.ns_level2 - 1)).length)
                (cfg.start_index + j))
            (Config.ns_pfx cfg ++
              padNum (max 3 (Nat.repr (cfg.start_index + cfg.namespaces.toNat - 1)).length)
                (cfg.start_index + i))
            ("root/" ++ (Config.ns_pfx cfg ++
              padNum (max 3 (Nat.repr (cfg.start_index + cfg.namespaces.toNat - 1)).length)
                (cfg.start_index + i)) ++ "/" ++
              ((Config.ns_pfx cfg ++
                padNum (max 3 (Nat.repr (cfg.start_index + cfg.namespaces.toNat - 1)).length)
                  (cfg.start_index + i)) ++ "-" ++
                padNum (max 3 (Nat.repr (cfg.start_index + cfg.ns_level2 - 1)).length)
                  (cfg.start_index + j)))
            (Config.mount_pfx cfg) cfg.start_index cfg.kvs.toNat
            (width_kv_of cfg.start_index cfg.kvs.toNat)).2)) =
          (List.range cfg.ns_level2).map (fun j =>
            [(Config.ns_pfx cfg ++
              padNum (max 3 (Nat.repr (cfg.start_index + cfg.namespaces.toNat - 1)).length)
                (cfg.start_index + i)) ++ "-" ++
              padNum (max 3 (Nat.repr (cfg.start_index + cfg.ns_level2 - 1)).length)
                (cfg.start_index + j)]) := by
        refine List.map_congr_left ?_
        intro j _
        exact nsNames_unit o _ _ _ _ _ _ _
      rw [hchild, flatten_map_singleton, List.singleton_append]
      simp only [repr_length_eq_digitCount]
    · rw [tree_trace_eq, mountNamesOf_append, mountNames_unit, mountNamesOf_flatten,
        List.map_map]
      have hchild : (List.range cfg.ns_level2).map (mountNamesOf ∘ (fun j =>
          (create_namespace_with_kvs o
            ((Config.ns_pfx cfg ++
              padNum (max 3 (Nat.repr (cfg.start_index + cfg.namespaces.toNat - 1)).length)
                (cfg.start_index + i)) ++ "-" ++
              padNum (max 3 (Nat.repr (cfg.start_index + cfg.ns_level2 - 1)).length)
                (cfg.start_index + j))
            (Config.ns_pfx cfg ++
              padNum (max 3 (Nat.repr (cfg.start_index + cfg.namespaces.toNat - 1)).length)
                (cfg.start_index + i))
            ("root/" ++ (Config.ns_pfx cfg ++
              padNum (max 3 (Nat.repr (cfg.start_index + cfg.namespaces.toNat - 1)).length)
                (cfg.start_index + i)) ++ "/" ++
              ((Config.ns_pfx cfg ++
                padNum (max 3 (Nat.repr (cfg.start_index + cfg.namespaces.toNat - 1)).length)
                  (cfg.start_index + i)) ++ "-" ++
                padNum (max 3 (Nat.repr (cfg.start_index + cfg.ns_level2 - 1)).length)
                  (cfg.start_index + j)))
            (Config.mount_pfx cfg) cfg.start_index cfg.kvs.toNat
            (width_kv_of cfg.start_index cfg.kvs.toNat)).2)) =
          (List.range cfg.ns_level2).map (fun _ =>
            (List.range cfg.kvs.toNat).map (fun j =>
              Config.mount_pfx cfg ++ "-" ++
                padNum (width_kv_of cfg.start_index cfg.kvs.toNat) (cfg.start_index + j))) := by
        refine List.map_congr_left ?_
        intro j _
        exact mountNames_unit o _ _ _ _ _ _ _
      rw [hchild, List.map_const', List.length_range, hkvnames]
      rw [List.replicate_succ, List.flatten_cons]

/-- Witness for C5: at the sample depth-2 configuration (`n = 2`, `x = 1`,
`startIndex = 1`), unit 0 creates namespace "ns-001" and mount "kv-001", with
widths `max 3 (digitCount 2) = 3`. -/
theorem claim5_witness :
    ((mainRun sampleConfig2 (some (oracleConst 200))).2)[0]? =
      some [Event.nsCreate "ns-001" "root" "root/ns-001",
        Event.mountCreate "ns-001" "kv-001"] ∧
    nsNamesOf [Event.nsCreate "ns-001" "root" "root/ns-001",
        Event.mountCreate "ns-001" "kv-001"] =
      ["ns" ++ "-" ++ padNum (max 3 (digitCount (1 + 2 - 1))) (1 + 0)] ∧
    mountNamesOf [Event.nsCreate "ns-001" "root" "root/ns-001",
        Event.mountCreate "ns-001" "kv-001"] =
      (List.range 1).map (fun j => "kv" ++ "-" ++ padNum (max 3 (digitCount (1 + 1 - 1)))
        (1 + j)) := by
  have h0 : ((mainRun sampleConfig2 (some (oracleConst 200))).2)[0]? =
      some [Event.nsCreate "ns-001" "root" "root/ns-001",
        Event.mountCreate "ns-001" "kv-001"] := by decide
  have h := (claim5_naming (oracleConst 200) sampleConfig2 (by decide) (by decide)
    (by decide) (by decide)).1 rfl 0
    [Event.nsCreate "ns-001" "root" "root/ns-001", Event.mountCreate "ns-001" "kv-001"]
    (by decide) h0
  exact ⟨h0, h.1, h.2⟩

end VaultNS
